import Mathlib

/-!
Severity-gated log notifications of the MCP server logger.

A shallow embedding of `server/logging.go` (the `serverLog` type and its
methods) together with the `mcp.Logger` interface it implements.

* A `*serverLog` receiver is an `Option serverLog`: `none` is the nil pointer.
* The `atomic.Value` field `loggingLevel` is an `Option mcp.LoggingLevel`:
  `none` is the empty cell, for which `Load()` returns the nil interface.
  `SetLogLevel` is the only writer, so a loaded value always has dynamic type
  `mcp.LoggingLevel`.
* The `*MCPServer` field is an `Option MCPServer`; of the server only the
  field `name` is read by this code.
* A call yields an `Exec`: how the call ended (normal return or Go run-time
  panic), the receiver after the call and the calls made to
  `SendNotificationToClient`, in order.
-/

namespace mcp

/-- Modelled from the spec: the type `mcp.LoggingLevel` is declared outside the
files at hand; the severity level travels as a lowercase string tag, so it is a
Go string type. -/
abbrev LoggingLevel := String

/-- Modelled from the spec: the wire tag of the severity `debug`. -/
def LoggingLevelDebug : LoggingLevel := "debug"

/-- Modelled from the spec: the wire tag of the severity `info`. -/
def LoggingLevelInfo : LoggingLevel := "info"

/-- Modelled from the spec: the wire tag of the severity `notice`. -/
def LoggingLevelNotice : LoggingLevel := "notice"

/-- Modelled from the spec: the wire tag of the severity `warning`. -/
def LoggingLevelWarning : LoggingLevel := "warning"

/-- Modelled from the spec: the wire tag of the severity `error`. -/
def LoggingLevelError : LoggingLevel := "error"

/-- Modelled from the spec: the wire tag of the severity `critical`. -/
def LoggingLevelCritical : LoggingLevel := "critical"

/-- Modelled from the spec: the wire tag of the severity `alert`. -/
def LoggingLevelAlert : LoggingLevel := "alert"

/-- Modelled from the spec: the wire tag of the severity `emergency`. -/
def LoggingLevelEmergency : LoggingLevel := "emergency"

/-- The UTF-8 encoding of a code point, as Go stores it in a string. -/
def utf8Bytes (c : Nat) : List Nat :=
  if c < 0x80 then [c]
  else if c < 0x800 then [0xC0 + c / 0x40, 0x80 + c % 0x40]
  else if c < 0x10000 then [0xE0 + c / 0x1000, 0x80 + c / 0x40 % 0x40, 0x80 + c % 0x40]
  else [0xF0 + c / 0x40000, 0x80 + c / 0x1000 % 0x40, 0x80 + c / 0x40 % 0x40,
        0x80 + c % 0x40]

/-- The bytes of a Go string. -/
def goBytes (s : String) : List Nat :=
  s.data.flatMap fun c => utf8Bytes c.toNat

/-- Lexicographic `<` on byte sequences: the first differing byte decides, and
a proper prefix is smaller. -/
def bytesLess : List Nat → List Nat → Bool
  | [], [] => false
  | [], _ :: _ => true
  | _ :: _, [] => false
  | x :: xs, y :: ys => if x < y then true else if y < x then false else bytesLess xs ys

/-- Go's `<` on two values of a string type: lexicographic comparison of the
bytes. -/
def LoggingLevel.less (a b : LoggingLevel) : Bool :=
  bytesLess (goBytes a) (goBytes b)

end mcp

/-- Modelled from the spec: the eight severities, listed in the increasing
order the specification gives them (debug first, emergency last). -/
inductive Severity where
  | debug | info | notice | warning | error | critical | alert | emergency
  deriving DecidableEq, Repr

namespace Severity

/-- Position of a severity in the sequence debug, info, notice, warning, error,
critical, alert, emergency. -/
def rank : Severity → Nat
  | debug => 0
  | info => 1
  | notice => 2
  | warning => 3
  | error => 4
  | critical => 5
  | alert => 6
  | emergency => 7

/-- The `mcp.LoggingLevel` constant of a severity. -/
def toLevel : Severity → mcp.LoggingLevel
  | debug => mcp.LoggingLevelDebug
  | info => mcp.LoggingLevelInfo
  | notice => mcp.LoggingLevelNotice
  | warning => mcp.LoggingLevelWarning
  | error => mcp.LoggingLevelError
  | critical => mcp.LoggingLevelCritical
  | alert => mcp.LoggingLevelAlert
  | emergency => mcp.LoggingLevelEmergency

/-- All eight severities, in increasing order. -/
def all : List Severity :=
  [debug, info, notice, warning, error, critical, alert, emergency]

end Severity

namespace server

/-- A `context.Context`; the logger only hands it on to the transport. -/
structure Context where
  id : Nat
  deriving DecidableEq, Repr

/-- A non-nil Go `error`, by its text. -/
abbrev GoError := String

/-- The dynamic values stored in the `map[string]any` that `Log` builds. -/
inductive Any where
  | loggingLevel (l : mcp.LoggingLevel)
  | string (s : String)
  deriving DecidableEq, Repr

/-- The `map[string]any` payload, as its key/value pairs. -/
abbrev Params := List (String × Any)

/-- One call of `SendNotificationToClient`, with its three arguments. -/
structure Send where
  ctx : Context
  method : String
  params : Params
  deriving DecidableEq, Repr

/-- The run-time panics this code can raise. -/
inductive Panic where
  /-- Type assertion `x.(T)` applied to the nil interface. -/
  | interfaceConversionNil
  /-- Field access through a nil pointer. -/
  | nilPointerDereference
  deriving DecidableEq, Repr

/-- How a call ends. -/
inductive Outcome (α : Type) where
  | returned (v : α)
  | panicked (p : Panic)
  deriving DecidableEq, Repr

/-- The part of `MCPServer` this code reads. -/
structure MCPServer where
  name : String
  deriving DecidableEq, Repr

/-- The struct `serverLog`. -/
structure serverLog where
  loggingLevel : Option mcp.LoggingLevel
  server : Option MCPServer
  deriving DecidableEq, Repr

/-- What the logger uses and the files at hand do not define: the constant
`mcp.MethodNotificationMessage` and the result (nil or an error) the server's
`SendNotificationToClient` reports for a call. -/
structure Env where
  MethodNotificationMessage : String
  sendResult : Send → Option GoError

/-- The effect of one method call on a `*serverLog`. -/
structure Exec (α : Type) where
  outcome : Outcome α
  logger : Option serverLog
  sends : List Send

/-- `fmt.Sprintf("mcp-server-%s-logger", name)`. -/
def loggerName (name : String) : String :=
  "mcp-server-" ++ name ++ "-logger"

/-- The call `s.SendNotificationToClient(ctx, method, params)`: the error it
reports and the record of the call. -/
def MCPServer.SendNotificationToClient (env : Env) (_s : MCPServer) (ctx : Context)
    (method : String) (params : Params) : Option GoError × List Send :=
  (env.sendResult ⟨ctx, method, params⟩, [⟨ctx, method, params⟩])

/-- `func (logger *serverLog) SetLogLevel(level mcp.LoggingLevel)`. -/
def serverLog.SetLogLevel (logger : Option serverLog) (level : mcp.LoggingLevel) :
    Exec Unit :=
  match logger with
  | none => ⟨.panicked .nilPointerDereference, none, []⟩
  | some l => ⟨.returned (), some { l with loggingLevel := some level }, []⟩

/-- `func (logger *serverLog) GetLogLevel() mcp.LoggingLevel`. -/
def serverLog.GetLogLevel (logger : Option serverLog) : Exec mcp.LoggingLevel :=
  match logger with
  | none => ⟨.panicked .nilPointerDereference, none, []⟩
  | some l =>
    match l.loggingLevel with
    | none => ⟨.returned mcp.LoggingLevelError, some l, []⟩
    | some level => ⟨.returned level, some l, []⟩

/-- `func (logger *serverLog) Log(ctx, level, message)`. -/
def serverLog.Log (env : Env) (logger : Option serverLog) (ctx : Context)
    (level : mcp.LoggingLevel) (message : String) : Exec Unit :=
  match logger with
  | none => ⟨.returned (), none, []⟩
  | some l =>
    -- logger.loggingLevel.Load().(mcp.LoggingLevel)
    match l.loggingLevel with
    | none => ⟨.panicked .interfaceConversionNil, some l, []⟩
    | some threshold =>
      if mcp.LoggingLevel.less threshold level then
        ⟨.returned (), some l, []⟩
      else
        -- the arguments are evaluated before the call: logger.server.name
        match l.server with
        | none => ⟨.panicked .nilPointerDereference, some l, []⟩
        | some s =>
          let call := s.SendNotificationToClient env ctx env.MethodNotificationMessage
            [("level", .loggingLevel level),
             ("logger", .string (loggerName s.name)),
             ("message", .string message)]
          -- `_ = ...`: the reported error is dropped
          ⟨.returned (), some l, call.2⟩

/-- `func (logger *serverLog) Debug(ctx, message)`. -/
def serverLog.Debug (env : Env) (logger : Option serverLog) (ctx : Context)
    (message : String) : Exec Unit :=
  serverLog.Log env logger ctx mcp.LoggingLevelDebug message

/-- `func (logger *serverLog) Info(ctx, message)`. -/
def serverLog.Info (env : Env) (logger : Option serverLog) (ctx : Context)
    (message : String) : Exec Unit :=
  serverLog.Log env logger ctx mcp.LoggingLevelInfo message

/-- `func (logger *serverLog) Notice(ctx, message)`. -/
def serverLog.Notice (env : Env) (logger : Option serverLog) (ctx : Context)
    (message : String) : Exec Unit :=
  serverLog.Log env logger ctx mcp.LoggingLevelNotice message

/-- `func (logger *serverLog) Warning(ctx, message)`. -/
def serverLog.Warning (env : Env) (logger : Option serverLog) (ctx : Context)
    (message : String) : Exec Unit :=
  serverLog.Log env logger ctx mcp.LoggingLevelWarning message

/-- `func (logger *serverLog) Error(ctx, message)`. -/
def serverLog.Error (env : Env) (logger : Option serverLog) (ctx : Context)
    (message : String) : Exec Unit :=
  serverLog.Log env logger ctx mcp.LoggingLevelError message

/-- `func (logger *serverLog) Critical(ctx, message)`. -/
def serverLog.Critical (env : Env) (logger : Option serverLog) (ctx : Context)
    (message : String) : Exec Unit :=
  serverLog.Log env logger ctx mcp.LoggingLevelCritical message

/-- `func (logger *serverLog) Alert(ctx, message)`. -/
def serverLog.Alert (env : Env) (logger : Option serverLog) (ctx : Context)
    (message : String) : Exec Unit :=
  serverLog.Log env logger ctx mcp.LoggingLevelAlert message

/-- `func (logger *serverLog) Emergency(ctx, message)`. -/
def serverLog.Emergency (env : Env) (logger : Option serverLog) (ctx : Context)
    (message : String) : Exec Unit :=
  serverLog.Log env logger ctx mcp.LoggingLevelEmergency message

/-- `n` consecutive calls `logger.Log(ctx, level, message)`: the sends of all
of them, the receiver after the last one; a panic ends the run. -/
def logTimes (env : Env) (logger : Option serverLog) (ctx : Context)
    (level : mcp.LoggingLevel) (message : String) : Nat → Exec Unit
  | 0 => ⟨.returned (), logger, []⟩
  | n + 1 =>
    let first := serverLog.Log env logger ctx level message
    match first.outcome with
    | .panicked p => ⟨.panicked p, first.logger, first.sends⟩
    | .returned _ =>
      let rest := logTimes env first.logger ctx level message n
      ⟨rest.outcome, rest.logger, first.sends ++ rest.sends⟩

/-- A logger as it is before any `SetLogLevel`: the `atomic.Value` is empty. -/
def freshLogger (s : Option MCPServer) : serverLog :=
  { loggingLevel := none, server := s }

/-- A transport whose every send succeeds. -/
def okEnv : Env :=
  { MethodNotificationMessage := "notifications/message", sendResult := fun _ => none }

/-- A transport whose every send fails. -/
def failEnv : Env :=
  { MethodNotificationMessage := "notifications/message",
    sendResult := fun _ => some "no active session" }

/-- A server used in the concrete runs. -/
def demoServer : MCPServer := { name := "demo" }

/-- The send expected of `Log` at level error with the message "boom" on a
logger of `demoServer`, under the context numbered 7. -/
def demoSend : Send :=
  { ctx := ⟨7⟩, method := "notifications/message",
    params := [("level", .loggingLevel "error"),
               ("logger", .string "mcp-server-demo-logger"),
               ("message", .string "boom")] }

end server

namespace client

/-- Modelled from the spec: a callback registered with `OnNotification`; the
client code is outside the files at hand. A callback is known by its label. -/
abbrev Handler := String

/-- Modelled from the spec: a decoded `mcp.JSONRPCNotification`, by its method
and its payload text. -/
structure JSONRPCNotification where
  method : String
  params : String
  deriving DecidableEq, Repr

/-- Modelled from the spec: an inbound wire message as the receive loop
classifies it, by the presence of a request-id correlation field: a response
to an outstanding request, or an unsolicited notification. -/
inductive Inbound where
  | response (id : Nat) (payload : String)
  | notification (n : JSONRPCNotification)
  deriving DecidableEq, Repr

/-- Modelled from the spec: one synchronous call of a registered handler, with
the position at which the handler was registered. -/
structure Invocation where
  slot : Nat
  handler : Handler
  notification : JSONRPCNotification
  deriving DecidableEq, Repr

/-- Modelled from the spec: the client, as far as dispatch goes: the handlers
in registration order, the handler calls made so far and the responses handed
to the call correlator (and through it to the waiting caller) so far. -/
structure Client where
  handlers : List Handler
  invocations : List Invocation
  responses : List (Nat × String)
  deriving DecidableEq, Repr

/-- Modelled from the spec: a client as `NewStreamableHttpClient` returns it,
with no handler registered and nothing received. -/
def NewStreamableHttpClient : Client :=
  { handlers := [], invocations := [], responses := [] }

/-- Modelled from the spec: `OnNotification(handler)`; registrations
accumulate, none is removed. -/
def Client.OnNotification (c : Client) (h : Handler) : Client :=
  { c with handlers := c.handlers ++ [h] }

/-- Modelled from the spec: registering a list of handlers, one after the
other, before dispatch starts. -/
def Client.registerAll (c : Client) (hs : List Handler) : Client :=
  hs.foldl Client.OnNotification c

/-- Modelled from the spec: a notification is passed, in registration order,
to every registered handler; `k` is the slot of the first handler of the list. -/
def invokeAll (n : JSONRPCNotification) : Nat → List Handler → List Invocation
  | _, [] => []
  | k, h :: hs => ⟨k, h, n⟩ :: invokeAll n (k + 1) hs

/-- Modelled from the spec: one turn of the receive loop. A response goes to
the call correlator and to no handler; a notification goes to every handler. -/
def Client.receive (c : Client) : Inbound → Client
  | .response id payload => { c with responses := c.responses ++ [(id, payload)] }
  | .notification n => { c with invocations := c.invocations ++ invokeAll n 0 c.handlers }

/-- Modelled from the spec: the receive loop over the inbound messages, in
arrival order. -/
def Client.receiveLoop (c : Client) (msgs : List Inbound) : Client :=
  msgs.foldl Client.receive c

/-- The notifications the handler registered at `slot` was called with, in the
order of the calls. -/
def Client.observed (c : Client) (slot : Nat) : List JSONRPCNotification :=
  (c.invocations.filter fun i => i.slot == slot).map fun i => i.notification

/-- The notification of an inbound message, if it is one. -/
def Inbound.asNotification : Inbound → Option JSONRPCNotification
  | .response _ _ => none
  | .notification n => some n

/-- The response of an inbound message, if it is one. -/
def Inbound.asResponse : Inbound → Option (Nat × String)
  | .response id payload => some (id, payload)
  | .notification _ => none

/-- Three notifications and, between them, the result of a tool call. -/
def demoInbound : List Inbound :=
  [.notification ⟨"notifications/message", "N1"⟩,
   .response 2 "tool result",
   .notification ⟨"notifications/message", "N2"⟩,
   .notification ⟨"notifications/message", "N3"⟩]

end client

open mcp server

/-! ## Shared facts about `Log` -/

/-- The payload `Log` builds for a server name, a level and a message. -/
theorem Log_of_gate_open (env : Env) (l : serverLog) (t : LoggingLevel) (s : MCPServer)
    (ctx : Context) (level : LoggingLevel) (message : String)
    (ht : l.loggingLevel = some t) (hs : l.server = some s)
    (hg : LoggingLevel.less t level = false) :
    serverLog.Log env (some l) ctx level message =
      ⟨.returned (), some l,
        [⟨ctx, env.MethodNotificationMessage,
          [("level", .loggingLevel level), ("logger", .string (loggerName s.name)),
           ("message", .string message)]⟩]⟩ := by
  simp [serverLog.Log, ht, hs, hg, MCPServer.SendNotificationToClient]

/-- A call stopped by the gate returns without a send and without a change. -/
theorem Log_of_gate_closed (env : Env) (l : serverLog) (t : LoggingLevel)
    (ctx : Context) (level : LoggingLevel) (message : String)
    (ht : l.loggingLevel = some t) (hg : LoggingLevel.less t level = true) :
    serverLog.Log env (some l) ctx level message = ⟨.returned (), some l, []⟩ := by
  simp [serverLog.Log, ht, hg]

/-- Repeating a call that passes the gate on a bound logger sends once per call. -/
theorem logTimes_of_gate_open (env : Env) (l : serverLog) (t : LoggingLevel) (s : MCPServer)
    (ctx : Context) (level : LoggingLevel) (message : String)
    (ht : l.loggingLevel = some t) (hs : l.server = some s)
    (hg : LoggingLevel.less t level = false) (n : Nat) :
    (logTimes env (some l) ctx level message n).sends.length = n ∧
      (logTimes env (some l) ctx level message n).outcome = .returned () ∧
      (logTimes env (some l) ctx level message n).logger = some l := by
  induction n with
  | zero => simp [logTimes]
  | succ k ih =>
    obtain ⟨h1, h2, h3⟩ := ih
    simp only [logTimes, Log_of_gate_open env l t s ctx level message ht hs hg]
    simp [h1, h2, h3]

/-! ## The severity gate -/

/-- C1: evaluation of the code where the claim fails. With the threshold set to
info on a logger bound to a server, `n` calls of `Log` at level debug, which is
less severe than info, make `n` transport sends and not zero. -/
theorem C1_debug_below_info_is_sent (env : Env) (s : MCPServer) (ctx : Context)
    (message : String) (n : Nat) :
    (logTimes env (serverLog.SetLogLevel (some (freshLogger (some s))) LoggingLevelInfo).logger
        ctx LoggingLevelDebug message n).sends.length = n :=
  (logTimes_of_gate_open env ⟨some LoggingLevelInfo, some s⟩ LoggingLevelInfo s ctx
    LoggingLevelDebug message rfl rfl (by decide) n).1

/-- C2: evaluation of the code where the claim fails. With the threshold set to
debug on a logger bound to a server, `Log` at level info, which is more severe
than debug, returns without any transport send. -/
theorem C2_info_above_debug_is_dropped (env : Env) (s : MCPServer) (ctx : Context)
    (message : String) :
    (serverLog.Log env
        (serverLog.SetLogLevel (some (freshLogger (some s))) LoggingLevelDebug).logger
        ctx LoggingLevelInfo message).sends = [] ∧
      (serverLog.Log env
        (serverLog.SetLogLevel (some (freshLogger (some s))) LoggingLevelDebug).logger
        ctx LoggingLevelInfo message).outcome = .returned () := by
  have h := Log_of_gate_closed env ⟨some LoggingLevelDebug, some s⟩ LoggingLevelDebug ctx
    LoggingLevelInfo message rfl (by decide)
  exact ⟨congrArg Exec.sends h, congrArg Exec.outcome h⟩

/-- C3: evaluation of the code where the claim fails. On a logger bound to a
server on which `SetLogLevel` was never called, `GetLogLevel` returns the
default error, yet `Log` panics for every level and message: it applies the
type assertion to the nil interface that `Load` returns. -/
theorem C3_Log_panics_before_SetLogLevel (env : Env) (s : MCPServer) (ctx : Context)
    (level : LoggingLevel) (message : String) :
    (serverLog.GetLogLevel (some (freshLogger (some s)))).outcome
        = .returned LoggingLevelError ∧
      (serverLog.Log env (some (freshLogger (some s))) ctx level message).outcome
        = .panicked .interfaceConversionNil ∧
      (serverLog.Log env (some (freshLogger (some s))) ctx level message).sends = [] := by
  simp [serverLog.GetLogLevel, serverLog.Log, freshLogger]

/-- C4: evaluation of the code where the claim fails. Warning comes before
error in the severity sequence, but `<` on the wire tags does not put
"warning" below "error" (it puts "error" below "warning"). -/
theorem C4_less_disagrees_on_warning_error :
    Severity.rank .warning < Severity.rank .error ∧
      LoggingLevel.less (Severity.toLevel .warning) (Severity.toLevel .error) = false ∧
      LoggingLevel.less (Severity.toLevel .error) (Severity.toLevel .warning) = true := by
  decide

/-! ## The threshold store -/

/-- C5: on a freshly constructed logger, on which `SetLogLevel` was never
called, `GetLogLevel()` returns `LoggingLevelError`. -/
theorem C5_GetLogLevel_default (s : Option MCPServer) :
    (serverLog.GetLogLevel (some (freshLogger s))).outcome = .returned LoggingLevelError := by
  simp [serverLog.GetLogLevel, freshLogger]

/-- C6: for every logger state and every level `L`, `SetLogLevel(L)` returns and
a following `GetLogLevel()` returns `L`, whatever was stored before; after
`SetLogLevel(L1); SetLogLevel(L2)`, `GetLogLevel()` returns `L2`. -/
theorem C6_SetLogLevel_then_GetLogLevel (l : serverLog) (L L1 L2 : LoggingLevel) :
    (serverLog.SetLogLevel (some l) L).outcome = .returned () ∧
      (serverLog.GetLogLevel (serverLog.SetLogLevel (some l) L).logger).outcome
        = .returned L ∧
      (serverLog.GetLogLevel
          (serverLog.SetLogLevel (serverLog.SetLogLevel (some l) L1).logger L2).logger).outcome
        = .returned L2 := by
  simp [serverLog.SetLogLevel, serverLog.GetLogLevel]

/-! ## Unset references -/

/-- C7: on a nil logger, `Log` and each of `Debug`, `Info`, `Notice`, `Warning`,
`Error`, `Critical`, `Alert` and `Emergency` return normally, for every level
and message, without a transport send. -/
theorem C7_nil_logger_is_silent (env : Env) (ctx : Context) (level : LoggingLevel)
    (message : String) :
    serverLog.Log env none ctx level message = ⟨.returned (), none, []⟩ ∧
      serverLog.Debug env none ctx message = ⟨.returned (), none, []⟩ ∧
      serverLog.Info env none ctx message = ⟨.returned (), none, []⟩ ∧
      serverLog.Notice env none ctx message = ⟨.returned (), none, []⟩ ∧
      serverLog.Warning env none ctx message = ⟨.returned (), none, []⟩ ∧
      serverLog.Error env none ctx message = ⟨.returned (), none, []⟩ ∧
      serverLog.Critical env none ctx message = ⟨.returned (), none, []⟩ ∧
      serverLog.Alert env none ctx message = ⟨.returned (), none, []⟩ ∧
      serverLog.Emergency env none ctx message = ⟨.returned (), none, []⟩ := by
  simp [serverLog.Log, serverLog.Debug, serverLog.Info, serverLog.Notice,
    serverLog.Warning, serverLog.Error, serverLog.Critical, serverLog.Alert,
    serverLog.Emergency]

/-- C8, as stated, fails: on a non-nil logger with the threshold error stored
and no server, `Log` at level error panics on the nil server. -/
theorem C8_unbound_logger_can_panic :
    (serverLog.Log okEnv (some ⟨some LoggingLevelError, none⟩) ⟨0⟩
        LoggingLevelError "disk full").outcome = .panicked .nilPointerDereference := by
  decide

/-- C8, amended: on a non-nil logger whose server reference is unset, `Log`
makes no transport send and leaves the logger as it was, for every content of
the threshold cell, level and message; it returns normally exactly when a
threshold is stored and the gate stops the call, and otherwise it panics. -/
theorem C8_unbound_logger_never_sends (env : Env) (cell : Option LoggingLevel)
    (ctx : Context) (level : LoggingLevel) (message : String) :
    (serverLog.Log env (some ⟨cell, none⟩) ctx level message).sends = [] ∧
      (serverLog.Log env (some ⟨cell, none⟩) ctx level message).logger
        = some ⟨cell, none⟩ ∧
      ((serverLog.Log env (some ⟨cell, none⟩) ctx level message).outcome = .returned () ↔
        ∃ t, cell = some t ∧ LoggingLevel.less t level = true) ∧
      ((∃ p, (serverLog.Log env (some ⟨cell, none⟩) ctx level message).outcome
          = .panicked p) ↔
        ¬ ∃ t, cell = some t ∧ LoggingLevel.less t level = true) := by
  cases cell with
  | none => simp [serverLog.Log]
  | some t =>
    cases hg : LoggingLevel.less t level <;> simp [serverLog.Log, hg]

/-! ## The send -/

/-- C9, as stated, fails: not every logger state lets `Log` return. With the
threshold critical stored and no server, `Log` at level alert panics, whatever
the transport would have answered. -/
theorem C9_Log_does_not_return_in_every_state :
    (serverLog.Log okEnv (some ⟨some LoggingLevelCritical, none⟩) ⟨3⟩
        LoggingLevelAlert "fan stopped").outcome ≠ .returned () ∧
      (serverLog.Log failEnv (some ⟨some LoggingLevelCritical, none⟩) ⟨3⟩
        LoggingLevelAlert "fan stopped").outcome ≠ .returned () := by
  decide

/-- C9, amended: for every logger state that is bound to a server and has a
threshold stored, every level and message, and every answer of the transport
(success or any error), `Log` returns normally (its result carries no error),
and the logger after the call is the logger before it, hence the same under
any two transports. -/
theorem C9_send_error_is_discarded (env env2 : Env) (l : serverLog) (t : LoggingLevel)
    (s : MCPServer) (ctx : Context) (level : LoggingLevel) (message : String)
    (ht : l.loggingLevel = some t) (hs : l.server = some s) :
    (serverLog.Log env (some l) ctx level message).outcome = .returned () ∧
      (serverLog.Log env (some l) ctx level message).logger = some l ∧
      (serverLog.Log env (some l) ctx level message).logger
        = (serverLog.Log env2 (some l) ctx level message).logger := by
  cases hg : LoggingLevel.less t level
  · simp [Log_of_gate_open env l t s ctx level message ht hs hg,
      Log_of_gate_open env2 l t s ctx level message ht hs hg]
  · simp [Log_of_gate_closed env l t ctx level message ht hg,
      Log_of_gate_closed env2 l t ctx level message ht hg]

/-- Witness of C9: a logger bound to the server "demo" with threshold error,
logging at level error, once over a transport that succeeds and once over one
that fails. -/
theorem C9_send_error_is_discarded_witness :
    (serverLog.Log okEnv (some ⟨some LoggingLevelError, some demoServer⟩) ⟨1⟩
        LoggingLevelError "boom").outcome = .returned () ∧
      (serverLog.Log okEnv (some ⟨some LoggingLevelError, some demoServer⟩) ⟨1⟩
        LoggingLevelError "boom").logger = some ⟨some LoggingLevelError, some demoServer⟩ ∧
      (serverLog.Log okEnv (some ⟨some LoggingLevelError, some demoServer⟩) ⟨1⟩
        LoggingLevelError "boom").logger
        = (serverLog.Log failEnv (some ⟨some LoggingLevelError, some demoServer⟩) ⟨1⟩
            LoggingLevelError "boom").logger :=
  C9_send_error_is_discarded okEnv failEnv ⟨some LoggingLevelError, some demoServer⟩
    LoggingLevelError demoServer ⟨1⟩ LoggingLevelError "boom" rfl rfl

/-- C10: whenever `Log` performs a send, the send carries the caller's context
and the method constant `mcp.MethodNotificationMessage`, and its params have
exactly the keys level, logger and message: level is the event level, logger is
"mcp-server-" ++ server name ++ "-logger", message is the message given. -/
theorem C10_payload_of_a_send (env : Env) (logger : Option serverLog) (ctx : Context)
    (level : LoggingLevel) (message : String) (snd : Send)
    (h : snd ∈ (serverLog.Log env logger ctx level message).sends) :
    snd.ctx = ctx ∧ snd.method = env.MethodNotificationMessage ∧
      snd.params.map Prod.fst = ["level", "logger", "message"] ∧
      snd.params.lookup "level" = some (.loggingLevel level) ∧
      snd.params.lookup "message" = some (.string message) ∧
      ∃ l s, logger = some l ∧ l.server = some s ∧
        snd.params.lookup "logger" = some (.string ("mcp-server-" ++ s.name ++ "-logger")) := by
  cases logger with
  | none => simp [serverLog.Log] at h
  | some l =>
    rcases l with ⟨cell, srv⟩
    cases cell with
    | none => simp [serverLog.Log] at h
    | some t =>
      cases hg : LoggingLevel.less t level
      · cases srv with
        | none => simp [serverLog.Log, hg] at h
        | some s =>
          rw [Log_of_gate_open env ⟨some t, some s⟩ t s ctx level message rfl rfl hg] at h
          simp only [List.mem_singleton] at h
          subst h
          refine ⟨rfl, rfl, rfl, ?_, ?_, ⟨some t, some s⟩, s, rfl, rfl, ?_⟩ <;>
            simp [List.lookup, loggerName]
      · simp [serverLog.Log, hg] at h

/-- Witness of C10: the one send of `Log` at level error, with the message
"boom", on a logger of the server "demo" whose threshold is error. -/
theorem C10_payload_of_a_send_witness :
    demoSend ∈ (serverLog.Log okEnv (some ⟨some LoggingLevelError, some demoServer⟩) ⟨7⟩
          LoggingLevelError "boom").sends ∧
      (demoSend.ctx = ⟨7⟩ ∧ demoSend.method = okEnv.MethodNotificationMessage ∧
        demoSend.params.map Prod.fst = ["level", "logger", "message"] ∧
        demoSend.params.lookup "level" = some (.loggingLevel LoggingLevelError) ∧
        demoSend.params.lookup "message" = some (.string "boom") ∧
        ∃ l s, some (⟨some LoggingLevelError, some demoServer⟩ : serverLog) = some l ∧
          l.server = some s ∧
          demoSend.params.lookup "logger"
            = some (.string ("mcp-server-" ++ s.name ++ "-logger"))) :=
  ⟨by decide,
   C10_payload_of_a_send okEnv (some ⟨some LoggingLevelError, some demoServer⟩) ⟨7⟩
    LoggingLevelError "boom" demoSend (by decide)⟩

/-! ## The severity methods, the frame and the gate as coded -/

/-- The receiver of `Log` is never changed by the call. -/
theorem Log_logger (env : Env) (logger : Option serverLog) (ctx : Context)
    (level : LoggingLevel) (message : String) :
    (serverLog.Log env logger ctx level message).logger = logger := by
  cases logger with
  | none => rfl
  | some l =>
    rcases l with ⟨cell, srv⟩
    cases cell with
    | none => rfl
    | some t =>
      cases hg : LoggingLevel.less t level <;> cases srv <;> simp [serverLog.Log, hg]

/-- C11: for every logger (nil included), context and message, each severity
method is the generic `Log` at its own level: `Debug` at `LoggingLevelDebug`,
`Info` at `LoggingLevelInfo`, `Notice` at `LoggingLevelNotice`, `Warning` at
`LoggingLevelWarning`, `Error` at `LoggingLevelError`, `Critical` at
`LoggingLevelCritical`, `Alert` at `LoggingLevelAlert` and `Emergency` at
`LoggingLevelEmergency`, with the same outcome, sends and resulting state. -/
theorem C11_severity_methods_are_Log (env : Env) (logger : Option serverLog)
    (ctx : Context) (message : String) :
    serverLog.Debug env logger ctx message
        = serverLog.Log env logger ctx LoggingLevelDebug message ∧
      serverLog.Info env logger ctx message
        = serverLog.Log env logger ctx LoggingLevelInfo message ∧
      serverLog.Notice env logger ctx message
        = serverLog.Log env logger ctx LoggingLevelNotice message ∧
      serverLog.Warning env logger ctx message
        = serverLog.Log env logger ctx LoggingLevelWarning message ∧
      serverLog.Error env logger ctx message
        = serverLog.Log env logger ctx LoggingLevelError message ∧
      serverLog.Critical env logger ctx message
        = serverLog.Log env logger ctx LoggingLevelCritical message ∧
      serverLog.Alert env logger ctx message
        = serverLog.Log env logger ctx LoggingLevelAlert message ∧
      serverLog.Emergency env logger ctx message
        = serverLog.Log env logger ctx LoggingLevelEmergency message :=
  ⟨rfl, rfl, rfl, rfl, rfl, rfl, rfl, rfl⟩

/-- C12: evaluation of the code where the claim fails. On a logger bound to a
server, after `SetLogLevel(Debug)` the call `Info(ctx, "hello")` records no
send at all; after `SetLogLevel(Error)` the call `Info(ctx, "ignored")` records
none either, so the total is zero and not one. -/
theorem C12_scenario_records_no_send (env : Env) (s : MCPServer) (ctx : Context) :
    (serverLog.Info env
        (serverLog.SetLogLevel (some (freshLogger (some s))) LoggingLevelDebug).logger
        ctx "hello").sends = [] ∧
      (serverLog.Info env
        (serverLog.SetLogLevel
          (serverLog.Info env
            (serverLog.SetLogLevel (some (freshLogger (some s))) LoggingLevelDebug).logger
            ctx "hello").logger
          LoggingLevelError).logger
        ctx "ignored").sends = [] := by
  have h1 := Log_of_gate_closed env ⟨some LoggingLevelDebug, some s⟩ LoggingLevelDebug ctx
    LoggingLevelInfo "hello" rfl (by decide)
  have h2 := Log_of_gate_closed env ⟨some LoggingLevelError, some s⟩ LoggingLevelError ctx
    LoggingLevelInfo "ignored" rfl (by decide)
  have e1 : serverLog.Info env
      (serverLog.SetLogLevel (some (freshLogger (some s))) LoggingLevelDebug).logger
      ctx "hello" = ⟨.returned (), some ⟨some LoggingLevelDebug, some s⟩, []⟩ := h1
  rw [e1]
  exact ⟨rfl, congrArg Exec.sends h2⟩

/-- C13: for every logger state and level `L`, `SetLogLevel(L)` changes only the
stored threshold (the server reference stays, no send is made), and
`GetLogLevel()` changes nothing and sends nothing, so two consecutive
`GetLogLevel()` calls return the same level. -/
theorem C13_threshold_store_frame (l : serverLog) (L : LoggingLevel) :
    (serverLog.SetLogLevel (some l) L).logger = some ⟨some L, l.server⟩ ∧
      (serverLog.SetLogLevel (some l) L).sends = [] ∧
      (serverLog.GetLogLevel (some l)).logger = some l ∧
      (serverLog.GetLogLevel (some l)).sends = [] ∧
      (serverLog.GetLogLevel (serverLog.GetLogLevel (some l)).logger).outcome
        = (serverLog.GetLogLevel (some l)).outcome := by
  rcases l with ⟨cell, srv⟩
  cases cell <;> simp [serverLog.SetLogLevel, serverLog.GetLogLevel]

/-- C16: on a non-nil logger bound to a server whose threshold has been set to
`T`, for every level `L` and message, `Log` returns after exactly one send when
`T < L` is false under Go's `<`, and after no send when `T < L` is true; it
never makes more than one send. -/
theorem C16_gate_as_coded (env : Env) (cell : Option LoggingLevel) (s : MCPServer)
    (T L : LoggingLevel) (ctx : Context) (message : String) :
    (serverLog.Log env (serverLog.SetLogLevel (some ⟨cell, some s⟩) T).logger
        ctx L message).sends.length = (if LoggingLevel.less T L then 0 else 1) ∧
      (serverLog.Log env (serverLog.SetLogLevel (some ⟨cell, some s⟩) T).logger
        ctx L message).sends.length ≤ 1 ∧
      (serverLog.Log env (serverLog.SetLogLevel (some ⟨cell, some s⟩) T).logger
        ctx L message).outcome = .returned () := by
  cases hg : LoggingLevel.less T L
  · simp [serverLog.SetLogLevel,
      Log_of_gate_open env ⟨some T, some s⟩ T s ctx L message rfl rfl hg]
  · simp [serverLog.SetLogLevel,
      Log_of_gate_closed env ⟨some T, some s⟩ T ctx L message rfl hg]

/-- C17: on a logger whose threshold has been set, for every level and message,
`Log` and each of the eight severity methods leave the stored threshold and the
server reference as they were, so `GetLogLevel()` returns after the call the
level it returned before, whether or not a notification was sent. -/
theorem C17_Log_frame (env : Env) (T : LoggingLevel) (srv : Option MCPServer)
    (ctx : Context) (level : LoggingLevel) (message : String) :
    (serverLog.GetLogLevel (some ⟨some T, srv⟩)).outcome = .returned T ∧
      (serverLog.Log env (some ⟨some T, srv⟩) ctx level message).logger
        = some ⟨some T, srv⟩ ∧
      (serverLog.Debug env (some ⟨some T, srv⟩) ctx message).logger = some ⟨some T, srv⟩ ∧
      (serverLog.Info env (some ⟨some T, srv⟩) ctx message).logger = some ⟨some T, srv⟩ ∧
      (serverLog.Notice env (some ⟨some T, srv⟩) ctx message).logger = some ⟨some T, srv⟩ ∧
      (serverLog.Warning env (some ⟨some T, srv⟩) ctx message).logger = some ⟨some T, srv⟩ ∧
      (serverLog.Error env (some ⟨some T, srv⟩) ctx message).logger = some ⟨some T, srv⟩ ∧
      (serverLog.Critical env (some ⟨some T, srv⟩) ctx message).logger
        = some ⟨some T, srv⟩ ∧
      (serverLog.Alert env (some ⟨some T, srv⟩) ctx message).logger = some ⟨some T, srv⟩ ∧
      (serverLog.Emergency env (some ⟨some T, srv⟩) ctx message).logger
        = some ⟨some T, srv⟩ ∧
      (serverLog.GetLogLevel
          (serverLog.Log env (some ⟨some T, srv⟩) ctx level message).logger).outcome
        = .returned T := by
  refine ⟨rfl, Log_logger _ _ _ _ _, Log_logger _ _ _ _ _, Log_logger _ _ _ _ _,
    Log_logger _ _ _ _ _, Log_logger _ _ _ _ _, Log_logger _ _ _ _ _, Log_logger _ _ _ _ _,
    Log_logger _ _ _ _ _, Log_logger _ _ _ _ _, ?_⟩
  rw [Log_logger]
  rfl

/-! ## Dispatch of inbound messages on the client -/

open client

/-- Registering handlers appends them and touches nothing else. -/
theorem registerAll_fields (c : Client) (hs : List Handler) :
    (c.registerAll hs).handlers = c.handlers ++ hs ∧
      (c.registerAll hs).invocations = c.invocations ∧
      (c.registerAll hs).responses = c.responses := by
  induction hs generalizing c with
  | nil => simp [Client.registerAll]
  | cons h hs ih =>
    have := ih (c.OnNotification h)
    simp only [Client.registerAll, List.foldl_cons] at this ⊢
    rw [this.1, this.2.1, this.2.2]
    simp [Client.OnNotification]

/-- One notification yields one call per registered handler. -/
theorem length_invokeAll (n : JSONRPCNotification) (k : Nat) (hs : List Handler) :
    (invokeAll n k hs).length = hs.length := by
  induction hs generalizing k with
  | nil => rfl
  | cons h hs ih => simp [invokeAll, ih]

/-- Among the calls made for one notification, a slot occurs once if it is a
registered one and not at all otherwise. -/
theorem observed_invokeAll (n : JSONRPCNotification) (k slot : Nat) (hs : List Handler) :
    ((invokeAll n k hs).filter fun i => i.slot == slot).map (fun i => i.notification)
      = if k ≤ slot ∧ slot < k + hs.length then [n] else [] := by
  induction hs generalizing k with
  | nil => simp [invokeAll]
  | cons h hs ih =>
    simp only [invokeAll, List.filter_cons, List.length_cons]
    by_cases hk : k = slot
    · subst hk
      have h2 : ¬ (k + 1 ≤ k ∧ k < k + 1 + hs.length) := by omega
      simp [ih, h2]
    · have hb : (k == slot) = false := by simpa using hk
      simp only [hb, Bool.false_eq_true, if_false, ih]
      by_cases h1 : k + 1 ≤ slot ∧ slot < k + 1 + hs.length
      · have h3 : k ≤ slot ∧ slot < k + (hs.length + 1) := by omega
        simp [h1, h3]
      · have h3 : ¬ (k ≤ slot ∧ slot < k + (hs.length + 1)) := by omega
        simp [h1, h3]

/-- What the receive loop adds to a client: every registered slot sees the
notifications of the run in arrival order, the correlator gets the responses,
and the handler list stays. -/
theorem receiveLoop_fields (c : Client) (msgs : List Inbound) :
    (c.receiveLoop msgs).handlers = c.handlers ∧
      (c.receiveLoop msgs).responses = c.responses ++ msgs.filterMap Inbound.asResponse ∧
      (c.receiveLoop msgs).invocations.length
        = c.invocations.length
          + c.handlers.length * (msgs.filterMap Inbound.asNotification).length ∧
      ∀ slot, slot < c.handlers.length →
        (c.receiveLoop msgs).observed slot
          = c.observed slot ++ msgs.filterMap Inbound.asNotification := by
  induction msgs generalizing c with
  | nil => simp [Client.receiveLoop]
  | cons m ms ih =>
    obtain ⟨h1, h2, h3, h4⟩ := ih (c.receive m)
    simp only [Client.receiveLoop, List.foldl_cons] at h1 h2 h3 h4 ⊢
    cases m with
    | response id payload =>
      simp only [Client.receive] at h1 h2 h3 h4 ⊢
      refine ⟨h1, ?_, ?_, ?_⟩
      · simp [h2, Inbound.asResponse]
      · simp [h3, Inbound.asNotification]
      · intro slot hs
        rw [h4 slot hs]
        simp [Client.observed, Inbound.asNotification]
    | notification n =>
      simp only [Client.receive] at h1 h2 h3 h4 ⊢
      refine ⟨h1, ?_, ?_, ?_⟩
      · simp [h2, Inbound.asResponse]
      · simp [h3, Inbound.asNotification, length_invokeAll, Nat.mul_add]
        omega
      · intro slot hs
        rw [h4 slot hs]
        simp [Client.observed, Inbound.asNotification, observed_invokeAll, hs]

/-- C15: for every sequence of inbound messages and every list of handlers
registered with `OnNotification` before dispatch, each registered handler is
called with exactly the unsolicited notifications of the sequence, each once
and in arrival order; the responses go to the call correlator, in arrival
order, and no handler call is made for them (the calls number handlers times
notifications). -/
theorem C15_handlers_see_notifications_in_order (hs : List Handler) (msgs : List Inbound)
    (slot : Nat) (h : slot < hs.length) :
    ((NewStreamableHttpClient.registerAll hs).receiveLoop msgs).observed slot
        = msgs.filterMap Inbound.asNotification ∧
      ((NewStreamableHttpClient.registerAll hs).receiveLoop msgs).responses
        = msgs.filterMap Inbound.asResponse ∧
      ((NewStreamableHttpClient.registerAll hs).receiveLoop msgs).invocations.length
        = hs.length * (msgs.filterMap Inbound.asNotification).length := by
  obtain ⟨r1, r2, r3⟩ := registerAll_fields NewStreamableHttpClient hs
  obtain ⟨-, l2, l3, l4⟩ := receiveLoop_fields (NewStreamableHttpClient.registerAll hs) msgs
  have hh : (NewStreamableHttpClient.registerAll hs).handlers = hs := by
    rw [r1]
    simp [NewStreamableHttpClient]
  refine ⟨?_, ?_, ?_⟩
  · rw [l4 slot (by rw [hh]; exact h)]
    rw [Client.observed, r2]
    simp [NewStreamableHttpClient]
  · rw [l2, r3]
    simp [NewStreamableHttpClient]
  · rw [l3, r2, hh]
    simp [NewStreamableHttpClient]

/-- Witness of C15: two handlers, and three notifications arriving with a tool
result between the first and the second; the second handler sees N1, N2, N3. -/
theorem C15_handlers_see_notifications_in_order_witness :
    1 < ["log", "count"].length ∧
      ((NewStreamableHttpClient.registerAll ["log", "count"]).receiveLoop demoInbound).observed 1
        = [⟨"notifications/message", "N1"⟩, ⟨"notifications/message", "N2"⟩,
           ⟨"notifications/message", "N3"⟩] ∧
      (((NewStreamableHttpClient.registerAll ["log", "count"]).receiveLoop demoInbound).observed 1
          = demoInbound.filterMap Inbound.asNotification ∧
        ((NewStreamableHttpClient.registerAll ["log", "count"]).receiveLoop demoInbound).responses
          = demoInbound.filterMap Inbound.asResponse ∧
        ((NewStreamableHttpClient.registerAll ["log", "count"]).receiveLoop
            demoInbound).invocations.length
          = ["log", "count"].length * (demoInbound.filterMap Inbound.asNotification).length) :=
  ⟨by decide, by decide,
   C15_handlers_see_notifications_in_order ["log", "count"] demoInbound 1 (by decide)⟩
